import Mathlib

/-!
# Verification of the redis-pubsub-exporter scrape engine

Shallow embedding of the exporter's Go sources:

* `internal/collector/client_parser.go` — `ParseClientList`, `parseIntField`;
* `internal/config/config.go`          — `ParseHashMetrics`;
* `internal/collector/collector.go`    — `Collect`, `scrape`, `infoSection`.

Redis itself is modelled as an environment (`RedisEnv`) supplying the result
of each command the scrape issues; metric emission (channel sends) is
modelled as an ordered list of `Sample` values, and `logger.Warn` calls as an
ordered list of `Warn` values.  Go `int`/`int64` values are modelled as
unbounded `Int` (overflow is irrelevant to the properties proved here), and
the `float64` cumulative error counter, which is only ever incremented by
`1`, as `Nat`.  Go's `strings.TrimSpace` is modelled by `String.trim`, which
agrees with it on the ASCII whitespace appearing in these formats.
-/

namespace RedisPubSub

/-! ### Go `strings` / `strconv` primitives -/

/-- Splits a character list at the first occurrence of `c`: Go's
`strings.IndexByte(s, c)` with `idx ≥ 0` followed by the slices `s[:idx]`
and `s[idx+1:]`; `none` when `c` does not occur (`idx < 0`).  All uses are
for the ASCII bytes `'='` and `'.'`, where byte positions in Go coincide
with character positions. -/
def breakOnChar (c : Char) : List Char → Option (List Char × List Char)
  | [] => none
  | x :: xs =>
    if x = c then some ([], xs)
    else (breakOnChar c xs).map (fun p => (x :: p.1, p.2))

/-- Go `strings.Split(s, sep)` for the single-character separators used by
this code base (`'\n'`, `' '`, `';'`, `','`): splitting the empty string
yields `[""]`, and every separator occurrence starts a new field. -/
def splitOnChar (c : Char) : List Char → List (List Char)
  | [] => [[]]
  | x :: xs =>
    match splitOnChar c xs with
    | [] => [[]]
    | r :: rs => if x = c then [] :: r :: rs else (x :: r) :: rs

/-- String version of `splitOnChar`. -/
def goSplit (c : Char) (s : String) : List String :=
  (splitOnChar c s.toList).map String.mk

/-- The ASCII subset of Go's `unicode.IsSpace` (`strings.TrimSpace` also
trims some non-ASCII Unicode spaces, which do not occur in the formats
parsed here). -/
def isGoSpace (c : Char) : Bool :=
  c = ' ' ∨ c = '\t' ∨ c = '\n' ∨ c = '\x0b' ∨ c = '\x0c' ∨ c = '\r'

/-- Go `strings.TrimSpace` (restricted to ASCII whitespace). -/
def goTrim (s : String) : String :=
  String.mk (((s.toList.dropWhile isGoSpace).reverse.dropWhile isGoSpace).reverse)

/-- Value of a decimal digit character, `none` for a non-digit. -/
def digitVal? (c : Char) : Option Nat :=
  if '0' ≤ c ∧ c ≤ '9' then some (c.toNat - '0'.toNat) else none

/-- Decimal value of a non-empty, all-digit character list; `none` on an
empty list or any non-digit character. -/
def digitsToNat? (ds : List Char) : Option Nat :=
  match ds with
  | [] => none
  | _ =>
    ds.foldl
      (fun acc c =>
        match acc, digitVal? c with
        | some n, some d => some (n * 10 + d)
        | _, _ => none)
      (some 0)

/-- Go `strconv.Atoi`: optional single `+`/`-` sign, then one or more
decimal digits; errors (here `none`) on an empty string, a stray character,
or 64-bit signed overflow. -/
def goAtoi (s : String) : Option Int :=
  let signAndDigits : Bool × List Char :=
    match s.toList with
    | '-' :: r => (true, r)
    | '+' :: r => (false, r)
    | r => (false, r)
  match digitsToNat? signAndDigits.2 with
  | none => none
  | some n =>
    let v : Int := if signAndDigits.1 then -(n : Int) else (n : Int)
    if v < -(2 ^ 63) ∨ 2 ^ 63 - 1 < v then none else some v

/-! ### `internal/collector/client_parser.go` -/

/-- `PubSubClient`: a Redis client with pub/sub subscriptions. -/
structure PubSubClient where
  Addr : String
  Name : String
  Sub : Int
  PSub : Int
deriving DecidableEq, Repr

/-- The `fields` map built inside the `ParseClientList` line loop: each
token is split on its first `'='` (tokens without `'='` are skipped), and a
later token overrides an earlier one with the same key (Go map assignment).
The map is represented as an association list, most recent write first, so
`List.lookup` returns the overriding value. -/
def buildFields (pairs : List String) : List (String × String) :=
  pairs.foldl
    (fun fields pair =>
      match breakOnChar '=' pair.toList with
      | none => fields
      | some kv => (String.mk kv.1, String.mk kv.2) :: fields)
    []

/-- `parseIntField`: looks up `key`; absent or non-`Atoi`-parseable values
yield `0`. -/
def parseIntField (fields : List (String × String)) (key : String) : Int :=
  match fields.lookup key with
  | none => 0
  | some v =>
    match goAtoi v with
    | none => 0
    | some i => i

/-- One iteration of the `ParseClientList` line loop: `none` when the line
is blank or parses to zero subscriptions, otherwise the appended client. -/
def parseClientLine (line : String) : Option PubSubClient :=
  let line := goTrim line
  if line = "" then none
  else
    let fields := buildFields (goSplit ' ' line)
    let sub := parseIntField fields "sub"
    let psub := parseIntField fields "psub"
    if sub = 0 ∧ psub = 0 then none
    else
      let name := (fields.lookup "name").getD ""
      let name := if name = "" then "unnamed" else name
      let addr := (fields.lookup "addr").getD ""
      let addr := if addr = "" then "unknown" else addr
      some { Addr := addr, Name := name, Sub := sub, PSub := psub }

/-- `ParseClientList`: parses Redis `CLIENT LIST` output, keeping only
clients with active pub/sub subscriptions, in input line order. -/
def ParseClientList (raw : String) : List PubSubClient :=
  (goSplit '\n' (goTrim raw)).filterMap parseClientLine

/-! ### `internal/config/config.go` -/

/-- `HashMetricDef`: one Redis hash exposed as a Prometheus gauge. -/
structure HashMetricDef where
  RedisKey : String
  MetricName : String
  Help : String
  FieldLabel : String
deriving DecidableEq, Repr

/-- The `fields` map built for one `;`-separated definition segment: pairs
are split on the first `'='` (pairs without `'='` skipped), keys and values
trimmed; a later pair overrides an earlier one (Go map assignment, most
recent write first). -/
def buildHashFields (segment : String) : List (String × String) :=
  (goSplit ',' segment).foldl
    (fun fields pair =>
      match breakOnChar '=' pair.toList with
      | none => fields
      | some kv => (goTrim (String.mk kv.1), goTrim (String.mk kv.2)) :: fields)
    []

/-- The `HashMetricDef` literal built from one segment's field map, before
the required-field check and help defaulting (Go map indexing yields `""`
for an absent key). -/
def rawHashDef (segment : String) : HashMetricDef :=
  let fields := buildHashFields segment
  { RedisKey := (fields.lookup "redis_key").getD ""
    MetricName := (fields.lookup "metric").getD ""
    Help := (fields.lookup "help").getD ""
    FieldLabel := (fields.lookup "label").getD "" }

/-- The rejection condition of `ParseHashMetrics` for one (trimmed,
non-empty) segment: a required field absent or empty. -/
def segMissingRequired (segment : String) : Prop :=
  (rawHashDef segment).RedisKey = "" ∨ (rawHashDef segment).MetricName = "" ∨
    (rawHashDef segment).FieldLabel = ""

instance (segment : String) : Decidable (segMissingRequired segment) := by
  unfold segMissingRequired
  infer_instance

/-- The segment loop of `ParseHashMetrics`: blank segments are skipped, a
segment missing a required field makes the whole parse return the error,
otherwise the definition (with help text defaulted) is appended. -/
def parseHashSegments : List String → Except Unit (List HashMetricDef)
  | [] => .ok []
  | segment :: rest =>
    let segment := goTrim segment
    if segment = "" then parseHashSegments rest
    else
      let d := rawHashDef segment
      if d.RedisKey = "" ∨ d.MetricName = "" ∨ d.FieldLabel = "" then .error ()
      else
        let d := if d.Help = "" then { d with Help := "Value from Redis hash " ++ d.RedisKey } else d
        (parseHashSegments rest).map (fun defs => d :: defs)

/-- `ParseHashMetrics`: parses the `HASH_METRICS` string (`;`-separated
definitions of `,`-separated `key=value` fields).  The Go error value (a
formatted message) is modelled as `Unit`. -/
def ParseHashMetrics (raw : String) : Except Unit (List HashMetricDef) :=
  let raw := goTrim raw
  if raw = "" then .ok []
  else parseHashSegments (goSplit ';' raw)

/-! ### `internal/collector/collector.go` -/

/-- One metric sample sent to the `chan<- prometheus.Metric` sink.  The two
`INFO`-derived gauges carry the raw field string (the Go code converts it
with a lossy `parseFloat`); the claims proved here never inspect those
values. -/
inductive Sample where
  | redisConnectedClients (raw : String)
  | redisUsedMemoryBytes (raw : String)
  | channelsTotal (n : Nat)
  | channelSubscriberCount (channel : String) (count : Int)
  | orphanChannelsTotal (n : Nat)
  | patternsTotal (n : Int)
  | clientsTotal (n : Nat)
  | clientChannelSubscriptions (name addr : String) (v : Int)
  | clientPatternSubscriptions (name addr : String) (v : Int)
  | patternSubscriberCount (pattern : String) (n : Nat)
  | redisUp (up : Bool)
  | scrapeErrorsTotal (n : Nat)
  | scrapeDurationSeconds
deriving DecidableEq, Repr

/-- One `logger.Warn` call made during a scrape. -/
inductive Warn where
  | truncation (count : Nat) (max : Int)
  | patternQueryFailed (pattern : String)
deriving DecidableEq, Repr

/-- The Redis side of one scrape: the result of each command the scrape may
issue.  `pubsubNumSub` is the `map[string]int64` returned by
`PUBSUB NUMSUB`, given in its (arbitrary) Go-map iteration order. -/
structure RedisEnv where
  pingOk : Bool
  infoClients : Except Unit (List (String × List (String × String)))
  infoMemory : Except Unit (List (String × List (String × String)))
  pubsubChannelsAll : Except Unit (List String)
  pubsubNumSub : Except Unit (List (String × Int))
  pubsubNumPat : Except Unit Int
  clientList : Except Unit String
  pubsubChannelsPat : String → Except Unit (List String)

/-- Outcome of `scrape`: a normal return (`ok` = `nil`, `fail` = non-`nil`
error) with the samples and warnings emitted so far, or a Go panic (the
out-of-range slice `channels[:maxChannels]`), which propagates out of
`Collect`. -/
inductive ScrapeOutcome where
  | ok (samples : List Sample) (warns : List Warn)
  | fail (samples : List Sample) (warns : List Warn)
  | panicked (samples : List Sample) (warns : List Warn)
deriving DecidableEq, Repr

/-- Samples emitted before the outcome was reached. -/
def ScrapeOutcome.samples : ScrapeOutcome → List Sample
  | .ok s _ => s
  | .fail s _ => s
  | .panicked s _ => s

/-- Warnings logged before the outcome was reached. -/
def ScrapeOutcome.warns : ScrapeOutcome → List Warn
  | .ok _ w => w
  | .fail _ w => w
  | .panicked _ w => w

/-- `infoSection`: exact-match lookup of a section key, then a
case-insensitive fallback scan (go-redis may return `"Clients"` or
`"clients"`). -/
def infoSection (m : List (String × List (String × String))) (key : String) :
    Option (List (String × String)) :=
  match m.lookup key with
  | some sec => some sec
  | none => (m.find? (fun kv => kv.1.toLower = key.toLower)).map (fun kv => kv.2)

/-- The at-most-one sample produced from one `INFO` result: section looked
up via `infoSection`, then the field; a missing section or field emits
nothing. -/
def infoMetricSample (info : List (String × List (String × String)))
    (sectionKey fieldKey : String) (mk : String → Sample) : List Sample :=
  match infoSection info sectionKey with
  | some sec =>
    match sec.lookup fieldKey with
    | some v => [mk v]
    | none => []
  | none => []

/-- The samples of the two `INFO` queries (`clients` then `memory`). -/
def infoSamples (clientsInfo memInfo : List (String × List (String × String))) :
    List Sample :=
  infoMetricSample clientsInfo "clients" "connected_clients" Sample.redisConnectedClients ++
    infoMetricSample memInfo "memory" "used_memory" Sample.redisUsedMemoryBytes

/-- Go map-set insertion (`patternSet[p] = struct{}{}`), represented as a
duplicate-free list in first-insertion order. -/
def insertUnique (acc : List String) (p : String) : List String :=
  if p ∈ acc then acc else acc ++ [p]

/-- The auto-discovered pattern for one channel name: the prefix before the
first `'.'` followed by `".*"`; `none` when the name has no `'.'`. -/
def derivePattern (channelName : String) : Option String :=
  match breakOnChar '.' channelName.toList with
  | some p => some (String.mk p.1 ++ ".*")
  | none => none

/-- The `patternSet` of `scrape`: operator-configured patterns plus the
derived prefix patterns of the (possibly truncated) channel list, as a
deduplicated list. -/
def buildPatternList (knownPatterns channels : List String) : List String :=
  channels.foldl
    (fun acc channelName =>
      match derivePattern channelName with
      | some pat => insertUnique acc pat
      | none => acc)
    (knownPatterns.foldl insertUnique [])

/-- Per-pattern probe result: the sample for one pattern (`none` when the
query fails or matches no channels). -/
def probeSample (env : RedisEnv) (pattern : String) : Option Sample :=
  match env.pubsubChannelsPat pattern with
  | .error _ => none
  | .ok matching =>
    if matching.length > 0 then some (.patternSubscriberCount pattern matching.length)
    else none

/-- Per-pattern probe warning: logged exactly when the query fails. -/
def probeWarn (env : RedisEnv) (pattern : String) : Option Warn :=
  match env.pubsubChannelsPat pattern with
  | .error _ => some (.patternQueryFailed pattern)
  | .ok _ => none

/-- The `for pattern := range patternSet` loop: a failed query logs a
warning and continues; a successful query emits a sample only when it
matched at least one channel. -/
def patternProbe (env : RedisEnv) (pats : List String) : List Sample × List Warn :=
  (pats.filterMap (probeSample env), pats.filterMap (probeWarn env))

/-- Per-client samples: one channel-subscription sample when `Sub > 0` and
one pattern-subscription sample when `PSub > 0`. -/
def clientSamples (cls : List PubSubClient) : List Sample :=
  cls.flatMap
    (fun cl =>
      (if cl.Sub > 0 then [Sample.clientChannelSubscriptions cl.Name cl.Addr cl.Sub] else []) ++
        (if cl.PSub > 0 then [Sample.clientPatternSubscriptions cl.Name cl.Addr cl.PSub] else []))

/-- The tail of `scrape` after the per-channel subscriber counts: orphan
total, `PUBSUB NUMPAT`, `CLIENT LIST`, and the best-effort pattern loop.
`pre` and `warns` are the samples and warnings already emitted. -/
def scrapeTail (knownPatterns : List String) (env : RedisEnv) (pre : List Sample)
    (warns : List Warn) (channels : List String) (orphanCount : Nat) : ScrapeOutcome :=
  let preO := pre ++ [Sample.orphanChannelsTotal orphanCount]
  match env.pubsubNumPat with
  | .error _ => .fail preO warns
  | .ok numpat =>
    let preP := preO ++ [Sample.patternsTotal numpat]
    match env.clientList with
    | .error _ => .fail preP warns
    | .ok raw =>
      let pubsubClients := ParseClientList raw
      let preC := preP ++ [Sample.clientsTotal pubsubClients.length]
      let pats := buildPatternList knownPatterns channels
      let probe := patternProbe env pats
      .ok (preC ++ clientSamples pubsubClients ++ probe.1) (warns ++ probe.2)

/-- The middle of `scrape`, entered with the already-truncated channel
list: total-channel sample, then `PUBSUB NUMSUB` (issued only for a
non-empty list) with per-channel samples and orphan counting. -/
def scrapeChannels (knownPatterns : List String) (env : RedisEnv) (pre : List Sample)
    (warns : List Warn) (channels : List String) : ScrapeOutcome :=
  let preT := pre ++ [Sample.channelsTotal channels.length]
  if channels.length > 0 then
    match env.pubsubNumSub with
    | .error _ => .fail preT warns
    | .ok numsub =>
      scrapeTail knownPatterns env
        (preT ++ numsub.map (fun p => Sample.channelSubscriberCount p.1 p.2)) warns channels
        ((numsub.filter (fun p => p.2 == 0)).length)
  else scrapeTail knownPatterns env preT warns channels 0

/-- `scrape`: ping, the two `INFO` queries, channel enumeration with the
high-cardinality guard, then `scrapeChannels`.  Inside the guard, the Go
slice `channels[:maxChannels]` panics when `maxChannels < 0` (the guard
`len(channels) > maxChannels` is then always true); otherwise it is
`List.take`. -/
def scrape (maxChannels : Int) (knownPatterns : List String) (env : RedisEnv) :
    ScrapeOutcome :=
  if env.pingOk then
    match env.infoClients with
    | .error _ => .fail [] []
    | .ok clientsInfo =>
      match env.infoMemory with
      | .error _ =>
        .fail (infoMetricSample clientsInfo "clients" "connected_clients"
          Sample.redisConnectedClients) []
      | .ok memInfo =>
        match env.pubsubChannelsAll with
        | .error _ => .fail (infoSamples clientsInfo memInfo) []
        | .ok channels =>
          if (channels.length : Int) > maxChannels then
            if maxChannels < 0 then
              .panicked (infoSamples clientsInfo memInfo)
                [Warn.truncation channels.length maxChannels]
            else
              scrapeChannels knownPatterns env (infoSamples clientsInfo memInfo)
                [Warn.truncation channels.length maxChannels]
                (channels.take maxChannels.toNat)
          else
            scrapeChannels knownPatterns env (infoSamples clientsInfo memInfo) [] channels
  else .fail [] []

/-- The collector state surviving across scrapes: the cumulative error
counter (a Go `float64` only ever incremented by `1`, modelled exactly as
`Nat`) and the cached health flag read by `IsRedisUp`. -/
structure CollectorState where
  scrapeErrors : Nat
  redisUp : Bool
deriving DecidableEq, Repr

/-- Outcome of one `Collect` call: a normal return with all samples sent to
the sink, all warnings, and the updated state — or a propagated panic from
`scrape`, in which case the tail health/error/duration sends never run and
the state is unchanged. -/
inductive CollectResult where
  | done (samples : List Sample) (warns : List Warn) (st : CollectorState)
  | panicked (samples : List Sample) (warns : List Warn) (st : CollectorState)
deriving DecidableEq, Repr

/-- All samples sent during the `Collect` call. -/
def CollectResult.samples : CollectResult → List Sample
  | .done s _ _ => s
  | .panicked s _ _ => s

/-- All warnings logged during the `Collect` call. -/
def CollectResult.warns : CollectResult → List Warn
  | .done _ w _ => w
  | .panicked _ w _ => w

/-- The collector state after the `Collect` call. -/
def CollectResult.state : CollectResult → CollectorState
  | .done _ _ st => st
  | .panicked _ _ st => st

/-- `Collect`: runs `scrape`; on error increments the cumulative counter;
caches `redisUp`; then emits the health, cumulative-error and duration
samples, in that order. -/
def Collect (maxChannels : Int) (knownPatterns : List String) (env : RedisEnv)
    (st : CollectorState) : CollectResult :=
  match scrape maxChannels knownPatterns env with
  | .ok s w =>
    .done (s ++ [Sample.redisUp true, Sample.scrapeErrorsTotal st.scrapeErrors,
        Sample.scrapeDurationSeconds]) w
      { scrapeErrors := st.scrapeErrors, redisUp := true }
  | .fail s w =>
    .done (s ++ [Sample.redisUp false, Sample.scrapeErrorsTotal (st.scrapeErrors + 1),
        Sample.scrapeDurationSeconds]) w
      { scrapeErrors := st.scrapeErrors + 1, redisUp := false }
  | .panicked s w => .panicked s w st

/-- The collector state after a sequence of `Collect` invocations. -/
def collectSeq (maxChannels : Int) (knownPatterns : List String)
    (envs : List RedisEnv) (st : CollectorState) : CollectorState :=
  envs.foldl (fun s e => (Collect maxChannels knownPatterns e s).state) st

/-- The channel list actually processed by the scrape after the
high-cardinality guard. -/
def processedChannels (maxChannels : Int) (channels : List String) : List String :=
  if (channels.length : Int) > maxChannels then channels.take maxChannels.toNat
  else channels

/-! ### Hash-metric reading (spec-modelled)

The collector sources provided here do not contain the hash-metric step:
`main` calls `collector.New(rdb, cfg.MaxChannels, cfg.KnownPatterns,
cfg.HashMetrics, logger)`, but the `New`/`scrape` accepting `HashMetrics`
is not among them, so the reader is modelled from the spec. -/

/-- One gauge sample produced by the hash-metric reader; the gauge value is
kept abstract (`α`) since float semantics are not modelled. -/
structure HashSample (α : Type) where
  metricName : String
  labelName : String
  labelValue : String
  value : α
deriving DecidableEq, Repr

/-- Modelled from the spec: the hash-metric reading step of the collector
(missing from the provided collector sources; only its caller in `main` is
present).  "For each `HashMetricDefinition`, reads all field/value pairs of
the named hash; for each field, parses the value as a floating-point number
(parse failure ⇒ sample skipped, not a fatal error) and emits one gauge
sample labeled with the field name under `fieldLabel`."  The float parse is
abstracted as the parameter `parseValue`. -/
def readHashMetric {α : Type} (parseValue : String → Option α) (d : HashMetricDef)
    (hash : List (String × String)) : List (HashSample α) :=
  hash.filterMap
    (fun fv =>
      (parseValue fv.2).map
        (fun x => { metricName := d.MetricName, labelName := d.FieldLabel,
                    labelValue := fv.1, value := x }))

/-! ### Concrete environments used by the closed witness statements -/

/-- An environment whose connectivity probe fails. -/
def envPingFail : RedisEnv :=
  { pingOk := false, infoClients := .error (), infoMemory := .error ()
    pubsubChannelsAll := .error (), pubsubNumSub := .error ()
    pubsubNumPat := .error (), clientList := .error ()
    pubsubChannelsPat := fun _ => .error () }

/-- An environment where every query succeeds with empty results. -/
def envOkBase : RedisEnv :=
  { pingOk := true, infoClients := .ok [], infoMemory := .ok []
    pubsubChannelsAll := .ok [], pubsubNumSub := .ok []
    pubsubNumPat := .ok 0, clientList := .ok ""
    pubsubChannelsPat := fun _ => .ok [] }

/-- `envOkBase` with five active channels. -/
def envFiveChannels : RedisEnv :=
  { envOkBase with pubsubChannelsAll := .ok ["c1", "c2", "c3", "c4", "c5"] }

/-- `envOkBase` where the query for the pattern `"a.*"` fails and every
other pattern query matches one channel. -/
def envPatternAFails : RedisEnv :=
  { envOkBase with
    pubsubChannelsPat := fun p => if p = "a.*" then .error () else .ok ["x"] }

/-! ### Helper predicates and structural lemmas -/

/-- The three samples `Collect` itself appends after `scrape` returns. -/
def isHealthSample : Sample → Bool
  | .redisUp _ => true
  | _ => false

/-- Recognizes the cumulative-error-count sample. -/
def isErrorsSample : Sample → Bool
  | .scrapeErrorsTotal _ => true
  | _ => false

/-- Recognizes the scrape-duration sample. -/
def isDurationSample : Sample → Bool
  | .scrapeDurationSeconds => true
  | _ => false

/-- Any of the three final samples. -/
def isFinalSample (s : Sample) : Bool :=
  isHealthSample s || isErrorsSample s || isDurationSample s

/-- Recognizes a per-pattern subscriber-count sample. -/
def isPatternCountSample : Sample → Bool
  | .patternSubscriberCount _ _ => true
  | _ => false

theorem mem_infoMetricSample {x : Sample} {info : List (String × List (String × String))}
    {sectionKey fieldKey : String} {mk : String → Sample}
    (h : x ∈ infoMetricSample info sectionKey fieldKey mk) : ∃ v, x = mk v := by
  unfold infoMetricSample at h
  rcases h1 : infoSection info sectionKey with _ | sec <;> simp only [h1] at h
  · simp at h
  · rcases h2 : sec.lookup fieldKey with _ | v <;> simp only [h2] at h
    · simp at h
    · simp at h
      exact ⟨v, h⟩

theorem mem_infoSamples {x : Sample} {ci mi : List (String × List (String × String))}
    (h : x ∈ infoSamples ci mi) :
    (∃ v, x = Sample.redisConnectedClients v) ∨ (∃ v, x = Sample.redisUsedMemoryBytes v) := by
  unfold infoSamples at h
  rcases List.mem_append.mp h with h' | h'
  · exact Or.inl (mem_infoMetricSample h')
  · exact Or.inr (mem_infoMetricSample h')

theorem probeSample_eq_some {env : RedisEnv} {q : String} {x : Sample}
    (h : probeSample env q = some x) :
    ∃ l, env.pubsubChannelsPat q = .ok l ∧ 0 < l.length ∧
      x = Sample.patternSubscriberCount q l.length := by
  unfold probeSample at h
  rcases h1 : env.pubsubChannelsPat q with e | l <;> simp only [h1] at h
  · simp at h
  · by_cases h2 : l.length > 0
    · rw [if_pos h2] at h
      exact ⟨l, rfl, h2, (Option.some_inj.mp h).symm⟩
    · rw [if_neg h2] at h
      simp at h

theorem mem_clientSamples {x : Sample} {cls : List PubSubClient}
    (h : x ∈ clientSamples cls) :
    (∃ a b v, x = Sample.clientChannelSubscriptions a b v) ∨
      (∃ a b v, x = Sample.clientPatternSubscriptions a b v) := by
  unfold clientSamples at h
  rcases List.mem_flatMap.mp h with ⟨cl, _, hx⟩
  rcases List.mem_append.mp hx with h' | h'
  · left
    refine ⟨cl.Name, cl.Addr, cl.Sub, ?_⟩
    by_cases hs : cl.Sub > 0
    · rw [if_pos hs] at h'
      simpa using h'
    · rw [if_neg hs] at h'
      simp at h'
  · right
    refine ⟨cl.Name, cl.Addr, cl.PSub, ?_⟩
    by_cases hs : cl.PSub > 0
    · rw [if_pos hs] at h'
      simpa using h'
    · rw [if_neg hs] at h'
      simp at h'

theorem scrapeTail_mem {kn : List String} {env : RedisEnv} {pre : List Sample}
    {warns : List Warn} {channels : List String} {orphanCount : Nat} {x : Sample}
    (h : x ∈ (scrapeTail kn env pre warns channels orphanCount).samples) :
    x ∈ pre ∨ (isFinalSample x = false ∧ isPatternCountSample x = false) ∨
      ∃ q, probeSample env q = some x := by
  unfold scrapeTail at h
  rcases hnp : env.pubsubNumPat with e | np <;> rw [hnp] at h
  · simp only [ScrapeOutcome.samples] at h
    rcases List.mem_append.mp h with h' | h'
    · exact Or.inl h'
    · simp at h'
      subst h'
      exact Or.inr (Or.inl ⟨rfl, rfl⟩)
  · rcases hcl : env.clientList with e | raw <;> rw [hcl] at h
    · simp only [ScrapeOutcome.samples] at h
      rcases List.mem_append.mp h with h' | h'
      · rcases List.mem_append.mp h' with h'' | h''
        · exact Or.inl h''
        · simp at h''
          subst h''
          exact Or.inr (Or.inl ⟨rfl, rfl⟩)
      · simp at h'
        subst h'
        exact Or.inr (Or.inl ⟨rfl, rfl⟩)
    · simp only [ScrapeOutcome.samples, patternProbe] at h
      rcases List.mem_append.mp h with h' | h'
      · rcases List.mem_append.mp h' with h'' | h''
        · rcases List.mem_append.mp h'' with h3 | h3
          · rcases List.mem_append.mp h3 with h4 | h4
            · rcases List.mem_append.mp h4 with h5 | h5
              · exact Or.inl h5
              · simp at h5
                subst h5
                exact Or.inr (Or.inl ⟨rfl, rfl⟩)
            · simp at h4
              subst h4
              exact Or.inr (Or.inl ⟨rfl, rfl⟩)
          · simp at h3
            subst h3
            exact Or.inr (Or.inl ⟨rfl, rfl⟩)
        · rcases mem_clientSamples h'' with ⟨a, b, v, hx⟩ | ⟨a, b, v, hx⟩ <;>
            (subst hx; exact Or.inr (Or.inl ⟨rfl, rfl⟩))
      · rcases List.mem_filterMap.mp h' with ⟨q, _, hq⟩
        exact Or.inr (Or.inr ⟨q, hq⟩)

theorem scrapeChannels_mem {kn : List String} {env : RedisEnv} {pre : List Sample}
    {warns : List Warn} {channels : List String} {x : Sample}
    (h : x ∈ (scrapeChannels kn env pre warns channels).samples) :
    x ∈ pre ∨ (isFinalSample x = false ∧ isPatternCountSample x = false) ∨
      ∃ q, probeSample env q = some x := by
  unfold scrapeChannels at h
  by_cases hlen : channels.length > 0
  · rw [if_pos hlen] at h
    rcases hns : env.pubsubNumSub with e | numsub <;> rw [hns] at h
    · simp only [ScrapeOutcome.samples] at h
      rcases List.mem_append.mp h with h' | h'
      · exact Or.inl h'
      · simp at h'
        subst h'
        exact Or.inr (Or.inl ⟨rfl, rfl⟩)
    · rcases scrapeTail_mem h with h' | h'
      · rcases List.mem_append.mp h' with h'' | h''
        · rcases List.mem_append.mp h'' with h3 | h3
          · exact Or.inl h3
          · simp at h3
            subst h3
            exact Or.inr (Or.inl ⟨rfl, rfl⟩)
        · rcases List.mem_map.mp h'' with ⟨p, _, hx⟩
          subst hx
          exact Or.inr (Or.inl ⟨rfl, rfl⟩)
      · exact Or.inr h'
  · rw [if_neg hlen] at h
    rcases scrapeTail_mem h with h' | h'
    · rcases List.mem_append.mp h' with h'' | h''
      · exact Or.inl h''
      · simp at h''
        subst h''
        exact Or.inr (Or.inl ⟨rfl, rfl⟩)
    · exact Or.inr h'

theorem probeSample_not_final {env : RedisEnv} {q : String} {x : Sample}
    (h : probeSample env q = some x) : isFinalSample x = false := by
  rcases probeSample_eq_some h with ⟨l, _, _, hx⟩
  subst hx
  rfl

theorem scrape_mem {maxChannels : Int} {kn : List String} {env : RedisEnv} {x : Sample}
    (h : x ∈ (scrape maxChannels kn env).samples) : isFinalSample x = false := by
  unfold scrape at h
  by_cases hping : env.pingOk
  · rw [if_pos hping] at h
    rcases hci : env.infoClients with e | ci <;> simp only [hci] at h
    · simp [ScrapeOutcome.samples] at h
    · rcases hmi : env.infoMemory with e | mi <;> simp only [hmi] at h
      · simp only [ScrapeOutcome.samples] at h
        rcases mem_infoMetricSample h with ⟨v, hx⟩
        subst hx
        rfl
      · rcases hch : env.pubsubChannelsAll with e | chl <;> simp only [hch] at h
        · simp only [ScrapeOutcome.samples] at h
          rcases mem_infoSamples h with ⟨v, hx⟩ | ⟨v, hx⟩ <;> (subst hx; rfl)
        · have hpre : ∀ y, y ∈ (infoSamples ci mi) → isFinalSample y = false := by
            intro y hy
            rcases mem_infoSamples hy with ⟨v, hx⟩ | ⟨v, hx⟩ <;> (subst hx; rfl)
          by_cases hg : (chl.length : Int) > maxChannels
          · rw [if_pos hg] at h
            by_cases hneg : maxChannels < 0
            · rw [if_pos hneg] at h
              simp only [ScrapeOutcome.samples] at h
              exact hpre x h
            · rw [if_neg hneg] at h
              rcases scrapeChannels_mem h with h' | ⟨h', _⟩ | ⟨q, hq⟩
              · exact hpre x h'
              · exact h'
              · exact probeSample_not_final hq
          · rw [if_neg hg] at h
            rcases scrapeChannels_mem h with h' | ⟨h', _⟩ | ⟨q, hq⟩
            · exact hpre x h'
            · exact h'
            · exact probeSample_not_final hq
  · rw [if_neg hping] at h
    simp [ScrapeOutcome.samples] at h

theorem scrape_no_panic {maxChannels : Int} {kn : List String} {env : RedisEnv}
    (hm : 0 ≤ maxChannels) (s : List Sample) (w : List Warn) :
    scrape maxChannels kn env ≠ .panicked s w := by
  unfold scrape
  by_cases hping : env.pingOk
  · rw [if_pos hping]
    rcases env.infoClients with e | ci <;> dsimp only
    · simp
    · rcases env.infoMemory with e | mi <;> dsimp only
      · simp
      · rcases env.pubsubChannelsAll with e | chl <;> dsimp only
        · simp
        · by_cases hg : (chl.length : Int) > maxChannels
          · rw [if_pos hg, if_neg (by omega)]
            unfold scrapeChannels
            by_cases hlen : (chl.take maxChannels.toNat).length > 0
            · rw [if_pos hlen]
              rcases env.pubsubNumSub with e | numsub
              · simp
              · unfold scrapeTail
                rcases env.pubsubNumPat with e | np
                · simp
                · rcases env.clientList with e | raw <;> simp
            · rw [if_neg hlen]
              unfold scrapeTail
              rcases env.pubsubNumPat with e | np
              · simp
              · rcases env.clientList with e | raw <;> simp
          · rw [if_neg hg]
            unfold scrapeChannels
            by_cases hlen : chl.length > 0
            · rw [if_pos hlen]
              rcases env.pubsubNumSub with e | numsub
              · simp
              · unfold scrapeTail
                rcases env.pubsubNumPat with e | np
                · simp
                · rcases env.clientList with e | raw <;> simp
            · rw [if_neg hlen]
              unfold scrapeTail
              rcases env.pubsubNumPat with e | np
              · simp
              · rcases env.clientList with e | raw <;> simp
  · rw [if_neg hping]
    simp

theorem scrapeTail_samples_shape (kn : List String) (env : RedisEnv) (pre : List Sample)
    (warns : List Warn) (channels : List String) (orphanCount : Nat) :
    ∃ rest, (scrapeTail kn env pre warns channels orphanCount).samples = pre ++ rest := by
  unfold scrapeTail
  rcases env.pubsubNumPat with e | np <;> dsimp only
  · exact ⟨[Sample.orphanChannelsTotal orphanCount], rfl⟩
  · rcases env.clientList with e | raw <;> dsimp only
    · exact ⟨[Sample.orphanChannelsTotal orphanCount, Sample.patternsTotal np],
        by simp [ScrapeOutcome.samples]⟩
    · refine ⟨[Sample.orphanChannelsTotal orphanCount, Sample.patternsTotal np,
        Sample.clientsTotal (ParseClientList raw).length] ++
        clientSamples (ParseClientList raw) ++
        (patternProbe env (buildPatternList kn channels)).1, ?_⟩
      simp [ScrapeOutcome.samples]

theorem scrapeChannels_samples_shape (kn : List String) (env : RedisEnv) (pre : List Sample)
    (warns : List Warn) (channels : List String) :
    ∃ rest, (scrapeChannels kn env pre warns channels).samples =
      pre ++ Sample.channelsTotal channels.length :: rest := by
  unfold scrapeChannels
  by_cases hlen : channels.length > 0
  · rw [if_pos hlen]
    rcases env.pubsubNumSub with e | numsub <;> dsimp only
    · exact ⟨[], rfl⟩
    · obtain ⟨r, hr⟩ := scrapeTail_samples_shape kn env
        ((pre ++ [Sample.channelsTotal channels.length]) ++
          numsub.map (fun p => Sample.channelSubscriberCount p.1 p.2)) warns channels
        ((numsub.filter (fun p => p.2 == 0)).length)
      refine ⟨numsub.map (fun p => Sample.channelSubscriberCount p.1 p.2) ++ r, ?_⟩
      rw [hr]
      simp
  · rw [if_neg hlen]
    obtain ⟨r, hr⟩ := scrapeTail_samples_shape kn env
      (pre ++ [Sample.channelsTotal channels.length]) warns channels 0
    refine ⟨r, ?_⟩
    rw [hr]
    simp

theorem scrapeTail_warns_shape (kn : List String) (env : RedisEnv) (pre : List Sample)
    (warns : List Warn) (channels : List String) (orphanCount : Nat) :
    ∃ w2, (scrapeTail kn env pre warns channels orphanCount).warns = warns ++ w2 ∧
      ∀ y ∈ w2, ∃ p, y = Warn.patternQueryFailed p := by
  unfold scrapeTail
  rcases env.pubsubNumPat with e | np <;> dsimp only
  · exact ⟨[], by simp [ScrapeOutcome.warns], by simp⟩
  · rcases env.clientList with e | raw <;> dsimp only
    · exact ⟨[], by simp [ScrapeOutcome.warns], by simp⟩
    · refine ⟨(patternProbe env (buildPatternList kn channels)).2, rfl, ?_⟩
      intro y hy
      simp only [patternProbe] at hy
      rcases List.mem_filterMap.mp hy with ⟨q, _, hq⟩
      unfold probeWarn at hq
      rcases h1 : env.pubsubChannelsPat q with e | l <;> simp only [h1] at hq
      · exact ⟨q, (Option.some_inj.mp hq).symm⟩
      · simp at hq

theorem scrapeChannels_warns_shape (kn : List String) (env : RedisEnv) (pre : List Sample)
    (warns : List Warn) (channels : List String) :
    ∃ w2, (scrapeChannels kn env pre warns channels).warns = warns ++ w2 ∧
      ∀ y ∈ w2, ∃ p, y = Warn.patternQueryFailed p := by
  unfold scrapeChannels
  by_cases hlen : channels.length > 0
  · rw [if_pos hlen]
    rcases env.pubsubNumSub with e | numsub <;> dsimp only
    · exact ⟨[], by simp [ScrapeOutcome.warns], by simp⟩
    · exact scrapeTail_warns_shape kn env _ warns channels _
  · rw [if_neg hlen]
    exact scrapeTail_warns_shape kn env _ warns channels 0

theorem scrape_entry_eq {maxChannels : Int} {kn : List String} {env : RedisEnv}
    {ci mi : List (String × List (String × String))} {chl : List String}
    (hm : 0 ≤ maxChannels) (hp : env.pingOk = true)
    (hci : env.infoClients = Except.ok ci) (hmi : env.infoMemory = Except.ok mi)
    (hch : env.pubsubChannelsAll = Except.ok chl) :
    scrape maxChannels kn env =
      scrapeChannels kn env (infoSamples ci mi)
        (if (chl.length : Int) > maxChannels then
          [Warn.truncation chl.length maxChannels]
         else [])
        (processedChannels maxChannels chl) := by
  unfold scrape processedChannels
  rw [if_pos hp]
  simp only [hci, hmi, hch]
  by_cases hg : (chl.length : Int) > maxChannels
  · simp only [if_pos hg, if_neg (show ¬maxChannels < 0 by omega)]
  · simp only [if_neg hg]

theorem scrapeTail_ok_eq {kn : List String} {env : RedisEnv} {pre : List Sample}
    {warns : List Warn} {channels : List String} {orphanCount : Nat} {np : Int}
    {raw : String}
    (hnp : env.pubsubNumPat = Except.ok np) (hcl : env.clientList = Except.ok raw) :
    scrapeTail kn env pre warns channels orphanCount =
      .ok (pre ++ [Sample.orphanChannelsTotal orphanCount] ++ [Sample.patternsTotal np] ++
            [Sample.clientsTotal (ParseClientList raw).length] ++
            clientSamples (ParseClientList raw) ++
            (buildPatternList kn channels).filterMap (probeSample env))
        (warns ++ (buildPatternList kn channels).filterMap (probeWarn env)) := by
  unfold scrapeTail
  simp only [hnp, hcl, patternProbe]

theorem scrapeChannels_ok_eq {kn : List String} {env : RedisEnv} {pre : List Sample}
    {warns : List Warn} {channels : List String} {numsub : List (String × Int)}
    (hns : env.pubsubNumSub = Except.ok numsub) :
    scrapeChannels kn env pre warns channels =
      scrapeTail kn env
        (pre ++ [Sample.channelsTotal channels.length] ++
          (if channels.length > 0 then
            numsub.map (fun p => Sample.channelSubscriberCount p.1 p.2)
           else []))
        warns channels
        (if channels.length > 0 then (numsub.filter (fun p => p.2 == 0)).length else 0) := by
  unfold scrapeChannels
  by_cases hlen : channels.length > 0
  · simp only [if_pos hlen, hns]
  · simp only [if_neg hlen, List.append_nil]

theorem isFinal_components {a : Sample} (h : isFinalSample a = false) :
    isHealthSample a = false ∧ isErrorsSample a = false ∧ isDurationSample a = false := by
  cases a <;>
    simp [isFinalSample, isHealthSample, isErrorsSample, isDurationSample] at h ⊢

/-- Unfolding of `collectSeq` on a first environment. -/
theorem collectSeq_cons (maxChannels : Int) (kn : List String) (e : RedisEnv)
    (es : List RedisEnv) (st : CollectorState) :
    collectSeq maxChannels kn (e :: es) st =
      collectSeq maxChannels kn es (Collect maxChannels kn e st).state := rfl

/-! ### Claim theorems -/

/-- Claim C1: every `Collect` invocation (with a nonnegative channel cap,
so the scrape completes rather than panicking) emits exactly one health
sample, one cumulative-error-count sample and one scrape-duration sample,
whether the scrape succeeds or aborts; and when the connectivity probe
fails these three are the only samples emitted, with the health sample
carrying `up = 0`. -/
theorem collect_emits_exactly_one_health_error_duration
    (maxChannels : Int) (kn : List String) (env : RedisEnv) (st : CollectorState)
    (hm : 0 ≤ maxChannels) :
    ((Collect maxChannels kn env st).samples.countP isHealthSample = 1 ∧
      (Collect maxChannels kn env st).samples.countP isErrorsSample = 1 ∧
      (Collect maxChannels kn env st).samples.countP isDurationSample = 1) ∧
    (env.pingOk = false →
      (Collect maxChannels kn env st).samples =
        [Sample.redisUp false, Sample.scrapeErrorsTotal (st.scrapeErrors + 1),
          Sample.scrapeDurationSeconds]) := by
  have hzero : ∀ s w, (scrape maxChannels kn env = .ok s w ∨
      scrape maxChannels kn env = .fail s w) →
      s.countP isHealthSample = 0 ∧ s.countP isErrorsSample = 0 ∧
        s.countP isDurationSample = 0 := by
    intro s w hsw
    have hmem : ∀ a ∈ s, isFinalSample a = false := by
      intro a ha
      have ha' : a ∈ (scrape maxChannels kn env).samples := by
        rcases hsw with h | h <;> rw [h] <;> exact ha
      exact scrape_mem ha'
    refine ⟨?_, ?_, ?_⟩
    · refine List.countP_eq_zero.mpr ?_
      intro a ha
      simp [(isFinal_components (hmem a ha)).1]
    · refine List.countP_eq_zero.mpr ?_
      intro a ha
      simp [(isFinal_components (hmem a ha)).2.1]
    · refine List.countP_eq_zero.mpr ?_
      intro a ha
      simp [(isFinal_components (hmem a ha)).2.2]
  unfold Collect
  rcases hs : scrape maxChannels kn env with ⟨s, w⟩ | ⟨s, w⟩ | ⟨s, w⟩ <;>
    dsimp only [CollectResult.samples]
  · obtain ⟨h1, h2, h3⟩ := hzero s w (Or.inl hs)
    constructor
    · refine ⟨?_, ?_, ?_⟩ <;>
        simp [List.countP_append, h1, h2, h3, List.countP_cons,
          isHealthSample, isErrorsSample, isDurationSample]
    · intro hping
      exfalso
      unfold scrape at hs
      simp [hping] at hs
  · obtain ⟨h1, h2, h3⟩ := hzero s w (Or.inr hs)
    constructor
    · refine ⟨?_, ?_, ?_⟩ <;>
        simp [List.countP_append, h1, h2, h3, List.countP_cons,
          isHealthSample, isErrorsSample, isDurationSample]
    · intro hping
      have hnil : ScrapeOutcome.fail s w = ScrapeOutcome.fail [] [] := by
        rw [← hs]
        unfold scrape
        simp [hping]
      injection hnil with hs' hw'
      rw [hs']
      rfl
  · exact absurd hs (scrape_no_panic hm s w)

/-- Closed witness for C1: a concrete invocation with the connectivity
probe failing. -/
theorem collect_emits_exactly_one_health_error_duration_witness :
    (((Collect 0 [] envPingFail { scrapeErrors := 0, redisUp := false }).samples.countP
        isHealthSample = 1 ∧
      (Collect 0 [] envPingFail { scrapeErrors := 0, redisUp := false }).samples.countP
        isErrorsSample = 1 ∧
      (Collect 0 [] envPingFail { scrapeErrors := 0, redisUp := false }).samples.countP
        isDurationSample = 1) ∧
    (envPingFail.pingOk = false →
      (Collect 0 [] envPingFail { scrapeErrors := 0, redisUp := false }).samples =
        [Sample.redisUp false, Sample.scrapeErrorsTotal (0 + 1),
          Sample.scrapeDurationSeconds])) :=
  collect_emits_exactly_one_health_error_duration 0 [] envPingFail
    { scrapeErrors := 0, redisUp := false } (by decide)

/-- Claim C2: across any sequence of `Collect` invocations the cumulative
scrape-error counter is non-decreasing; an invocation whose scrape returns
an error increments it by exactly one, and a successful invocation leaves
it unchanged. -/
theorem scrape_errors_counter_evolution (maxChannels : Int) (kn : List String) :
    (∀ (envs : List RedisEnv) (st : CollectorState),
        st.scrapeErrors ≤ (collectSeq maxChannels kn envs st).scrapeErrors) ∧
    (∀ (env : RedisEnv) (st : CollectorState) (s : List Sample) (w : List Warn),
        scrape maxChannels kn env = ScrapeOutcome.fail s w →
        (Collect maxChannels kn env st).state.scrapeErrors = st.scrapeErrors + 1) ∧
    (∀ (env : RedisEnv) (st : CollectorState) (s : List Sample) (w : List Warn),
        scrape maxChannels kn env = ScrapeOutcome.ok s w →
        (Collect maxChannels kn env st).state.scrapeErrors = st.scrapeErrors) := by
  have hstep : ∀ (env : RedisEnv) (st : CollectorState),
      st.scrapeErrors ≤ (Collect maxChannels kn env st).state.scrapeErrors := by
    intro env st
    unfold Collect
    rcases scrape maxChannels kn env with ⟨s, w⟩ | ⟨s, w⟩ | ⟨s, w⟩ <;>
      dsimp only [CollectResult.state] <;> omega
  refine ⟨?_, ?_, ?_⟩
  · intro envs
    induction envs with
    | nil =>
      intro st
      exact le_refl _
    | cons e es ih =>
      intro st
      rw [collectSeq_cons]
      exact le_trans (hstep e st) (ih ((Collect maxChannels kn e st).state))
  · intro env st s w h
    unfold Collect
    rw [h]
    rfl
  · intro env st s w h
    unfold Collect
    rw [h]
    rfl

/-- Closed witness for C2: a failing scrape increments the counter from `0`
to `1`. -/
theorem scrape_errors_counter_evolution_witness :
    (Collect 0 [] envPingFail { scrapeErrors := 0, redisUp := false }).state.scrapeErrors =
      0 + 1 :=
  (scrape_errors_counter_evolution 0 []).2.1 envPingFail
    { scrapeErrors := 0, redisUp := false } [] [] rfl

/-- Claim C3: when the discovered channel list is longer than
`maxChannels` (a nonnegative cap), the scrape continues with exactly the
first `maxChannels` entries, a truncation warning is logged, and the
`channels_total` sample reports `maxChannels`; otherwise the full list is
processed, no truncation warning is logged, and `channels_total` reports
the full length. -/
theorem channel_list_truncation
    (maxChannels : Int) (kn : List String) (env : RedisEnv)
    (ci mi : List (String × List (String × String))) (chl : List String)
    (hm : 0 ≤ maxChannels) (hp : env.pingOk = true)
    (hci : env.infoClients = Except.ok ci) (hmi : env.infoMemory = Except.ok mi)
    (hch : env.pubsubChannelsAll = Except.ok chl) :
    ((chl.length : Int) > maxChannels →
      scrape maxChannels kn env =
        scrapeChannels kn env (infoSamples ci mi)
          [Warn.truncation chl.length maxChannels] (chl.take maxChannels.toNat) ∧
      Warn.truncation chl.length maxChannels ∈ (scrape maxChannels kn env).warns ∧
      Sample.channelsTotal maxChannels.toNat ∈ (scrape maxChannels kn env).samples) ∧
    (¬(chl.length : Int) > maxChannels →
      scrape maxChannels kn env =
        scrapeChannels kn env (infoSamples ci mi) [] chl ∧
      (∀ n m, Warn.truncation n m ∉ (scrape maxChannels kn env).warns) ∧
      Sample.channelsTotal chl.length ∈ (scrape maxChannels kn env).samples) := by
  have hentry := @scrape_entry_eq maxChannels kn env ci mi chl hm hp hci hmi hch
  constructor
  · intro hg
    have he : scrape maxChannels kn env =
        scrapeChannels kn env (infoSamples ci mi)
          [Warn.truncation chl.length maxChannels] (chl.take maxChannels.toNat) := by
      rw [hentry]
      unfold processedChannels
      rw [if_pos hg, if_pos hg]
    refine ⟨he, ?_, ?_⟩
    · obtain ⟨w2, hw2, _⟩ := scrapeChannels_warns_shape kn env (infoSamples ci mi)
        [Warn.truncation chl.length maxChannels] (chl.take maxChannels.toNat)
      rw [he, hw2]
      simp
    · obtain ⟨r, hr⟩ := scrapeChannels_samples_shape kn env (infoSamples ci mi)
        [Warn.truncation chl.length maxChannels] (chl.take maxChannels.toNat)
      have hlen : (chl.take maxChannels.toNat).length = maxChannels.toNat := by
        rw [List.length_take]
        omega
      rw [he, hr, hlen]
      simp
  · intro hg
    have he : scrape maxChannels kn env =
        scrapeChannels kn env (infoSamples ci mi) [] chl := by
      rw [hentry]
      unfold processedChannels
      rw [if_neg hg, if_neg hg]
    refine ⟨he, ?_, ?_⟩
    · intro n m
      obtain ⟨w2, hw2, hall⟩ := scrapeChannels_warns_shape kn env (infoSamples ci mi) [] chl
      rw [he, hw2]
      intro hmem
      simp only [List.nil_append] at hmem
      obtain ⟨p, hpe⟩ := hall _ hmem
      simp at hpe
    · obtain ⟨r, hr⟩ := scrapeChannels_samples_shape kn env (infoSamples ci mi) [] chl
      rw [he, hr]
      simp

/-- Closed witness for C3: `maxChannels = 2` with five discovered
channels. -/
theorem channel_list_truncation_witness :
    (((["c1", "c2", "c3", "c4", "c5"] : List String).length : Int) > 2 →
      scrape 2 [] envFiveChannels =
        scrapeChannels [] envFiveChannels (infoSamples [] [])
          [Warn.truncation ["c1", "c2", "c3", "c4", "c5"].length 2]
          (["c1", "c2", "c3", "c4", "c5"].take (2 : Int).toNat) ∧
      Warn.truncation ["c1", "c2", "c3", "c4", "c5"].length 2 ∈
        (scrape 2 [] envFiveChannels).warns ∧
      Sample.channelsTotal (2 : Int).toNat ∈ (scrape 2 [] envFiveChannels).samples) ∧
    (¬((["c1", "c2", "c3", "c4", "c5"] : List String).length : Int) > 2 →
      scrape 2 [] envFiveChannels =
        scrapeChannels [] envFiveChannels (infoSamples [] []) []
          ["c1", "c2", "c3", "c4", "c5"] ∧
      (∀ n m, Warn.truncation n m ∉ (scrape 2 [] envFiveChannels).warns) ∧
      Sample.channelsTotal (["c1", "c2", "c3", "c4", "c5"] : List String).length ∈
        (scrape 2 [] envFiveChannels).samples) :=
  channel_list_truncation 2 [] envFiveChannels [] [] ["c1", "c2", "c3", "c4", "c5"]
    (by decide) rfl rfl rfl rfl

/-- Claim C4: a per-pattern channel-query failure only skips that pattern
(no subscriber-count sample for it, a warning is logged); the other
patterns are still probed and the scrape completes successfully, leaving
the cumulative error counter unchanged and `up = true`. -/
theorem per_pattern_failure_is_skipped
    (maxChannels : Int) (kn : List String) (env : RedisEnv) (st : CollectorState)
    (ci mi : List (String × List (String × String))) (chl : List String)
    (numsub : List (String × Int)) (np : Int) (raw : String)
    (hm : 0 ≤ maxChannels) (hp : env.pingOk = true)
    (hci : env.infoClients = Except.ok ci) (hmi : env.infoMemory = Except.ok mi)
    (hch : env.pubsubChannelsAll = Except.ok chl)
    (hns : env.pubsubNumSub = Except.ok numsub)
    (hnp : env.pubsubNumPat = Except.ok np)
    (hcl : env.clientList = Except.ok raw) :
    ∃ s w, scrape maxChannels kn env = ScrapeOutcome.ok s w ∧
      (∀ p, p ∈ buildPatternList kn (processedChannels maxChannels chl) →
        env.pubsubChannelsPat p = Except.error () →
        (∀ n, Sample.patternSubscriberCount p n ∉ s) ∧
          Warn.patternQueryFailed p ∈ w) ∧
      (∀ p l, p ∈ buildPatternList kn (processedChannels maxChannels chl) →
        env.pubsubChannelsPat p = Except.ok l → 0 < l.length →
        Sample.patternSubscriberCount p l.length ∈ s) ∧
      (Collect maxChannels kn env st).state.scrapeErrors = st.scrapeErrors ∧
      (Collect maxChannels kn env st).state.redisUp = true := by
  have hentry := @scrape_entry_eq maxChannels kn env ci mi chl hm hp hci hmi hch
  have hok := (hentry.trans (scrapeChannels_ok_eq hns)).trans (scrapeTail_ok_eq hnp hcl)
  refine ⟨_, _, hok, ?_, ?_, ?_, ?_⟩
  · intro p hpmem herr
    constructor
    · intro n hmem
      have hmem' : Sample.patternSubscriberCount p n ∈
          (scrapeChannels kn env (infoSamples ci mi)
            (if (chl.length : Int) > maxChannels then
              [Warn.truncation chl.length maxChannels]
             else [])
            (processedChannels maxChannels chl)).samples := by
        rw [← hentry, hok]
        exact hmem
      rcases scrapeChannels_mem hmem' with h' | ⟨_, h'⟩ | ⟨q, hq⟩
      · rcases mem_infoSamples h' with ⟨v, hx⟩ | ⟨v, hx⟩ <;> simp at hx
      · simp [isPatternCountSample] at h'
      · obtain ⟨l, hql, _, hx⟩ := probeSample_eq_some hq
        have hqp : q = p := by
          injection hx.symm
        rw [hqp] at hql
        rw [herr] at hql
        cases hql
    · refine List.mem_append_right _ ?_
      refine List.mem_filterMap.mpr ⟨p, hpmem, ?_⟩
      simp [probeWarn, herr]
  · intro p l hpmem hql hlen
    refine List.mem_append_right _ ?_
    refine List.mem_filterMap.mpr ⟨p, hpmem, ?_⟩
    simp [probeSample, hql, hlen]
  · unfold Collect
    rw [hok]
    rfl
  · unfold Collect
    rw [hok]
    rfl

/-- Closed witness for C4: the query for pattern `"a.*"` fails while
`"b.*"` succeeds. -/
theorem per_pattern_failure_is_skipped_witness :
    ∃ s w, scrape 5 ["a.*", "b.*"] envPatternAFails = ScrapeOutcome.ok s w ∧
      (∀ p, p ∈ buildPatternList ["a.*", "b.*"] (processedChannels 5 []) →
        envPatternAFails.pubsubChannelsPat p = Except.error () →
        (∀ n, Sample.patternSubscriberCount p n ∉ s) ∧
          Warn.patternQueryFailed p ∈ w) ∧
      (∀ p l, p ∈ buildPatternList ["a.*", "b.*"] (processedChannels 5 []) →
        envPatternAFails.pubsubChannelsPat p = Except.ok l → 0 < l.length →
        Sample.patternSubscriberCount p l.length ∈ s) ∧
      (Collect 5 ["a.*", "b.*"] envPatternAFails
        { scrapeErrors := 3, redisUp := false }).state.scrapeErrors = 3 ∧
      (Collect 5 ["a.*", "b.*"] envPatternAFails
        { scrapeErrors := 3, redisUp := false }).state.redisUp = true :=
  per_pattern_failure_is_skipped 5 ["a.*", "b.*"] envPatternAFails
    { scrapeErrors := 3, redisUp := false } [] [] [] [] 0 ""
    (by decide) rfl rfl rfl rfl rfl rfl rfl

theorem insertUnique_toFinset (acc : List String) (p : String) :
    (insertUnique acc p).toFinset = insert p acc.toFinset := by
  unfold insertUnique
  by_cases h : p ∈ acc
  · rw [if_pos h]
    exact (Finset.insert_eq_self.mpr (List.mem_toFinset.mpr h)).symm
  · rw [if_neg h]
    rw [List.toFinset_append]
    simp [Finset.union_comm, Finset.insert_eq]

theorem foldl_insertUnique_toFinset (l : List String) (acc : List String) :
    (l.foldl insertUnique acc).toFinset = acc.toFinset ∪ l.toFinset := by
  induction l generalizing acc with
  | nil => simp
  | cons x xs ih =>
    simp only [List.foldl_cons]
    rw [ih, insertUnique_toFinset, Finset.insert_union, List.toFinset_cons,
      Finset.union_insert]

theorem channelsFold_toFinset (chl : List String) (acc : List String) :
    (chl.foldl
      (fun acc channelName =>
        match derivePattern channelName with
        | some pat => insertUnique acc pat
        | none => acc) acc).toFinset =
      acc.toFinset ∪ (chl.filterMap derivePattern).toFinset := by
  induction chl generalizing acc with
  | nil => simp
  | cons c cs ih =>
    simp only [List.foldl_cons, List.filterMap_cons]
    rcases h : derivePattern c with _ | pat <;> simp only [h]
    · rw [ih]
    · rw [ih, insertUnique_toFinset, Finset.insert_union, List.toFinset_cons,
        Finset.union_insert]

/-- Claim C5: the probed pattern set equals the deduplicated union of the
configured patterns and the patterns derived from channel names containing
a `'.'` (prefix before the first `'.'` plus `".*"`); in particular the
three channels `orders.created`, `orders.updated`, `billing.paid` derive
exactly the set `{orders.*, billing.*}`. -/
theorem pattern_discovery_union (kn chl : List String) :
    (buildPatternList kn chl).toFinset =
      kn.toFinset ∪ (chl.filterMap derivePattern).toFinset ∧
    (buildPatternList [] ["orders.created", "orders.updated", "billing.paid"]).toFinset =
      {"orders.*", "billing.*"} := by
  constructor
  · unfold buildPatternList
    rw [channelsFold_toFinset, foldl_insertUnique_toFinset]
    simp
  · decide

/-- Claim C6 counterexample: `Atoi` parses negative numbers, so the line
`"id=1 sub=-1"` yields a retained record whose `sub` is negative — the
claim's clause "every record in the output has `sub > 0` or `psub > 0`"
fails on it. -/
theorem client_with_negative_sub_retained :
    ∃ cl, cl ∈ ParseClientList "id=1 sub=-1" ∧ ¬(cl.Sub > 0 ∨ cl.PSub > 0) := by
  refine ⟨{ Addr := "unknown", Name := "unnamed", Sub := -1, PSub := 0 }, ?_, ?_⟩
  · decide
  · decide

/-- Claim C6 (amended): no record with `sub = 0` and `psub = 0` ever
appears in the output of `ParseClientList` — equivalently every record has
`sub ≠ 0` or `psub ≠ 0` (the strict `> 0` form fails for negative
values). -/
theorem parse_client_list_drops_zero_zero (raw : String) (cl : PubSubClient)
    (h : cl ∈ ParseClientList raw) : ¬(cl.Sub = 0 ∧ cl.PSub = 0) := by
  unfold ParseClientList at h
  rcases List.mem_filterMap.mp h with ⟨line, _, hline⟩
  simp only [parseClientLine] at hline
  split_ifs at hline with h1 h2 <;>
    · have hcl := Option.some_inj.mp hline
      subst hcl
      simpa using h2

/-- Closed witness for the amended C6. -/
theorem parse_client_list_drops_zero_zero_witness :
    ¬(({ Addr := "unknown", Name := "unnamed", Sub := 2, PSub := 0 } : PubSubClient).Sub = 0 ∧
      ({ Addr := "unknown", Name := "unnamed", Sub := 2, PSub := 0 } : PubSubClient).PSub = 0) :=
  parse_client_list_drops_zero_zero "id=1 sub=2"
    { Addr := "unknown", Name := "unnamed", Sub := 2, PSub := 0 } (by decide)

theorem parseHashSegments_error_of_missing (segs : List String)
    (h : ∃ seg ∈ segs, goTrim seg ≠ "" ∧ segMissingRequired (goTrim seg)) :
    parseHashSegments segs = .error () := by
  induction segs with
  | nil => simp at h
  | cons seg rest ih =>
    rcases h with ⟨s, hmem, hs1, hs2⟩
    rcases List.mem_cons.mp hmem with rfl | hmem'
    · simp only [parseHashSegments]
      rw [if_neg hs1]
      have h2 := hs2
      unfold segMissingRequired at h2
      rw [if_pos h2]
    · have hrest := ih ⟨s, hmem', hs1, hs2⟩
      simp only [parseHashSegments]
      by_cases h1 : goTrim seg = ""
      · rw [if_pos h1]
        exact hrest
      · rw [if_neg h1]
        by_cases h2 : segMissingRequired (goTrim seg)
        · unfold segMissingRequired at h2
          rw [if_pos h2]
        · have h2' := h2
          unfold segMissingRequired at h2'
          rw [if_neg h2', hrest]
          rfl

/-- Claim C7: a definition string containing any non-blank segment that
lacks `redis_key`, `metric` or `label` makes `ParseHashMetrics` fail as a
whole (no definitions are ever partially accepted); in particular
`"metric=x,help=y,label=z"` fails to parse. -/
theorem hash_metric_whole_input_rejected (raw : String)
    (h : ∃ seg ∈ goSplit ';' (goTrim raw), goTrim seg ≠ "" ∧ segMissingRequired (goTrim seg)) :
    ParseHashMetrics raw = .error () ∧
      ParseHashMetrics "metric=x,help=y,label=z" = .error () := by
  constructor
  · unfold ParseHashMetrics
    have hne : ¬goTrim raw = "" := by
      intro he
      rcases h with ⟨s, hmem, hs1, _⟩
      rw [he] at hmem
      have hsp : goSplit ';' "" = [""] := by decide
      rw [hsp] at hmem
      simp at hmem
      rw [hmem] at hs1
      exact hs1 (by decide)
    rw [if_neg hne]
    exact parseHashSegments_error_of_missing _ h
  · rfl

/-- Closed witness for C7. -/
theorem hash_metric_whole_input_rejected_witness :
    ParseHashMetrics "metric=x,help=y,label=z" = .error () ∧
      ParseHashMetrics "metric=x,help=y,label=z" = .error () :=
  hash_metric_whole_input_rejected "metric=x,help=y,label=z"
    ⟨"metric=x,help=y,label=z", by decide, by decide, by decide⟩

/-- Claim C8 counterexample: the auto-generated help text of
`ParseHashMetrics` is `"Value from Redis hash <redisKey>"`, not
`"Value from hash <redisKey>"`: on the claim's own example string the
second definition's help text is not the claimed string. -/
theorem hash_help_text_counterexample :
    ParseHashMetrics "redis_key=app:counters,metric=request_count,help=Requests,label=endpoint;redis_key=app:sessions,metric=session_count,label=user" =
      .ok [{ RedisKey := "app:counters", MetricName := "request_count",
             Help := "Requests", FieldLabel := "endpoint" },
           { RedisKey := "app:sessions", MetricName := "session_count",
             Help := "Value from Redis hash app:sessions", FieldLabel := "user" }] ∧
    ("Value from Redis hash app:sessions" : String) ≠ "Value from hash app:sessions" :=
  ⟨rfl, by decide⟩

/-- Claim C8 (amended): a valid definition whose `help` field is empty is
assigned the auto-generated help text `"Value from Redis hash <redisKey>"`
(not `"Value from hash <redisKey>"`); in particular the claim's example
string parses to two definitions whose second has help text
`"Value from Redis hash app:sessions"`. -/
theorem hash_help_auto_generated (segment : String)
    (hr : (rawHashDef (goTrim segment)).RedisKey ≠ "")
    (hmn : (rawHashDef (goTrim segment)).MetricName ≠ "")
    (hl : (rawHashDef (goTrim segment)).FieldLabel ≠ "")
    (hh : (rawHashDef (goTrim segment)).Help = "")
    (hs : goTrim segment ≠ "") :
    parseHashSegments [segment] =
      .ok [{ rawHashDef (goTrim segment) with
             Help := "Value from Redis hash " ++ (rawHashDef (goTrim segment)).RedisKey }] ∧
    ParseHashMetrics "redis_key=app:counters,metric=request_count,help=Requests,label=endpoint;redis_key=app:sessions,metric=session_count,label=user" =
      .ok [{ RedisKey := "app:counters", MetricName := "request_count",
             Help := "Requests", FieldLabel := "endpoint" },
           { RedisKey := "app:sessions", MetricName := "session_count",
             Help := "Value from Redis hash app:sessions", FieldLabel := "user" }] := by
  constructor
  · simp only [parseHashSegments]
    rw [if_neg hs]
    rw [if_neg (show ¬((rawHashDef (goTrim segment)).RedisKey = "" ∨
        (rawHashDef (goTrim segment)).MetricName = "" ∨
        (rawHashDef (goTrim segment)).FieldLabel = "") by
      push_neg
      exact ⟨hr, hmn, hl⟩)]
    rw [if_pos hh]
    rfl
  · rfl

/-- Closed witness for the amended C8. -/
theorem hash_help_auto_generated_witness :
    parseHashSegments ["redis_key=k,metric=m,label=l"] =
      .ok [{ rawHashDef (goTrim "redis_key=k,metric=m,label=l") with
             Help := "Value from Redis hash " ++
               (rawHashDef (goTrim "redis_key=k,metric=m,label=l")).RedisKey }] ∧
    ParseHashMetrics "redis_key=app:counters,metric=request_count,help=Requests,label=endpoint;redis_key=app:sessions,metric=session_count,label=user" =
      .ok [{ RedisKey := "app:counters", MetricName := "request_count",
             Help := "Requests", FieldLabel := "endpoint" },
           { RedisKey := "app:sessions", MetricName := "session_count",
             Help := "Value from Redis hash app:sessions", FieldLabel := "user" }] :=
  hash_help_auto_generated "redis_key=k,metric=m,label=l" (by decide) (by decide)
    (by decide) (by decide) (by decide)

/-- Claim C9 (spec-modelled): for each hash-metric definition the reader
emits exactly one gauge sample per hash field whose value parses, labelled
with the field name under `fieldLabel` and value-equal to the parsed
number; a field whose value fails to parse is skipped, and a hash with
zero fields yields zero samples (the reader is total, so no error). -/
theorem hash_metric_reader_behavior {α : Type} (parseValue : String → Option α)
    (d : HashMetricDef) (hash : List (String × String)) :
    (∀ f v x, (f, v) ∈ hash → parseValue v = some x →
      ({ metricName := d.MetricName, labelName := d.FieldLabel, labelValue := f,
         value := x } : HashSample α) ∈ readHashMetric parseValue d hash) ∧
    (∀ s ∈ readHashMetric parseValue d hash,
      ∃ fv, fv ∈ hash ∧ parseValue fv.2 = some s.value ∧ s.labelValue = fv.1 ∧
        s.labelName = d.FieldLabel ∧ s.metricName = d.MetricName) ∧
    (readHashMetric parseValue d hash).length =
      (hash.filter (fun fv => (parseValue fv.2).isSome)).length ∧
    readHashMetric parseValue d ([] : List (String × String)) = [] := by
  refine ⟨?_, ?_, ?_, rfl⟩
  · intro f v x hmem hp
    unfold readHashMetric
    refine List.mem_filterMap.mpr ⟨(f, v), hmem, ?_⟩
    simp [hp]
  · intro s hs
    unfold readHashMetric at hs
    rcases List.mem_filterMap.mp hs with ⟨fv, hmem, hfv⟩
    rcases hp : parseValue fv.2 with _ | x <;> rw [hp] at hfv
    · simp at hfv
    · simp only [Option.map_some'] at hfv
      have hrec := Option.some_inj.mp hfv
      subst hrec
      exact ⟨fv, hmem, by simp [hp], rfl, rfl, rfl⟩
  · induction hash with
    | nil => rfl
    | cons fv t ih =>
      simp only [readHashMetric, List.filterMap_cons, List.filter_cons] at ih ⊢
      rcases hp : parseValue fv.2 with _ | x <;> simp [hp, ih]

/-- Closed witness for C9: one parseable field of one hash yields its
gauge sample. -/
theorem hash_metric_reader_behavior_witness :
    ({ metricName := "active_user_count", labelName := "user", labelValue := "user-1",
       value := (5 : Int) } : HashSample Int) ∈
      readHashMetric (fun v => if v = "5" then some (5 : Int) else none)
        { RedisKey := "myapp:active_users", MetricName := "active_user_count",
          Help := "h", FieldLabel := "user" } [("user-1", "5")] :=
  (hash_metric_reader_behavior (fun v => if v = "5" then some (5 : Int) else none)
      { RedisKey := "myapp:active_users", MetricName := "active_user_count",
        Help := "h", FieldLabel := "user" } [("user-1", "5")]).1 "user-1" "5" 5
    (by decide) (by decide)

/-- Claim C10: with a negative `maxChannels`, once the scrape reaches the
truncation step the guard `len(channels) > maxChannels` is true even for
an empty channel list, the slice `channels[:maxChannels]` panics, and the
whole `Collect` call panics instead of emitting its health, error-count
and duration samples. -/
theorem negative_max_channels_panics
    (maxChannels : Int) (kn : List String) (env : RedisEnv) (st : CollectorState)
    (ci mi : List (String × List (String × String))) (chl : List String)
    (hneg : maxChannels < 0) (hp : env.pingOk = true)
    (hci : env.infoClients = Except.ok ci) (hmi : env.infoMemory = Except.ok mi)
    (hch : env.pubsubChannelsAll = Except.ok chl) :
    ((chl.length : Int) > maxChannels) ∧
    Collect maxChannels kn env st =
      CollectResult.panicked (infoSamples ci mi)
        [Warn.truncation chl.length maxChannels] st ∧
    (Collect maxChannels kn env st).samples.countP isHealthSample = 0 ∧
    (Collect maxChannels kn env st).samples.countP isErrorsSample = 0 ∧
    (Collect maxChannels kn env st).samples.countP isDurationSample = 0 := by
  have hg : (chl.length : Int) > maxChannels := by omega
  have hsc : scrape maxChannels kn env =
      ScrapeOutcome.panicked (infoSamples ci mi)
        [Warn.truncation chl.length maxChannels] := by
    unfold scrape
    rw [if_pos hp]
    simp only [hci, hmi, hch]
    rw [if_pos hg, if_pos hneg]
  have hc : Collect maxChannels kn env st =
      CollectResult.panicked (infoSamples ci mi)
        [Warn.truncation chl.length maxChannels] st := by
    unfold Collect
    rw [hsc]
  refine ⟨hg, hc, ?_, ?_, ?_⟩ <;>
    · rw [hc]
      dsimp only [CollectResult.samples]
      refine List.countP_eq_zero.mpr ?_
      intro a ha
      rcases mem_infoSamples ha with ⟨v, hx⟩ | ⟨v, hx⟩ <;> subst hx <;>
        simp [isHealthSample, isErrorsSample, isDurationSample]

/-- Closed witness for C10: `maxChannels = -1` with an empty channel
list. -/
theorem negative_max_channels_panics_witness :
    ((([] : List String).length : Int) > -1) ∧
    Collect (-1) [] envOkBase { scrapeErrors := 0, redisUp := false } =
      CollectResult.panicked (infoSamples [] [])
        [Warn.truncation ([] : List String).length (-1)]
        { scrapeErrors := 0, redisUp := false } ∧
    (Collect (-1) [] envOkBase { scrapeErrors := 0, redisUp := false }).samples.countP
      isHealthSample = 0 ∧
    (Collect (-1) [] envOkBase { scrapeErrors := 0, redisUp := false }).samples.countP
      isErrorsSample = 0 ∧
    (Collect (-1) [] envOkBase { scrapeErrors := 0, redisUp := false }).samples.countP
      isDurationSample = 0 :=
  negative_max_channels_panics (-1) [] envOkBase { scrapeErrors := 0, redisUp := false }
    [] [] [] (by decide) rfl rfl rfl rfl

end RedisPubSub
